import Mathlib

/-!
Verification development for the RealTech Labs client-side script
(`script.js` and its sibling variant): cookie consent, contact-form
validation and submission, chatbot widget, and testimonials carousel.

The JavaScript is shallowly embedded: pure helpers become Lean functions
over `String` / `List Char`; the event-driven widgets become explicit
state machines driven by lists of events; the browser's single-threaded
run-to-completion model is reflected by treating each synchronous segment
of a handler as one atomic step.
-/

namespace RealTech

/-! ## String helpers (JS `trim`, `toLowerCase`, `includes`) -/

/-- Embedding of the JavaScript whitespace class used by `String.prototype.trim`,
restricted to the characters relevant here (ASCII whitespace). -/
def isWs (c : Char) : Bool := c.isWhitespace

/-- Drop leading whitespace, as the first half of JS `trim`. -/
def dropLeadWs (l : List Char) : List Char := l.dropWhile isWs

/-- Embedding of `value.trim()` on the character list: drop whitespace from
both ends. -/
def trimList (l : List Char) : List Char :=
  ((l.dropWhile isWs).reverse.dropWhile isWs).reverse

/-- Embedding of `value.trim()` on strings. -/
def jsTrim (s : String) : String := ⟨trimList s.data⟩

/-- Embedding of `String.prototype.toLowerCase` for one character
(ASCII range, which covers every keyword the chatbot matches). -/
def lowerChar (c : Char) : Char :=
  if c.toNat ≥ 65 ∧ c.toNat ≤ 90 then Char.ofNat (c.toNat + 32) else c

/-- Embedding of `message.toLowerCase()`. -/
def jsToLower (s : String) : String := ⟨s.data.map lowerChar⟩

/-- Embedding of `String.prototype.includes`: `pat` occurs as a contiguous
substring of `s`. -/
def jsIncludes (s pat : String) : Bool :=
  (List.range (s.data.length + 1)).any
    (fun i => (s.data.drop i).take pat.data.length = pat.data)

/-! ## Email validation (`FormValidator.isValidEmail`)

The source tests `/^[^\s@]+@[^\s@]+\.[^\s@]+$/`.  A string matches exactly
when it decomposes as `L ++ "@" ++ M ++ "." ++ R` with `L`, `M`, `R`
non-empty and free of whitespace and `@` (the `.` may itself occur inside
`M` or `R`, since `[^\s@]` admits it).  The embedding searches over the
position `i` of the `@` and the position `j` of the chosen `.`. -/

/-- A character admitted by the `[^\s@]` class. -/
def emailChar (c : Char) : Bool := !(isWs c) && c ≠ '@'

/-- Embedding of `FormValidator.isValidEmail` (the regex test). -/
def isValidEmail (s : String) : Bool :=
  let cs := s.data
  (List.range cs.length).any (fun i =>
    (List.range cs.length).any (fun j =>
      decide (1 ≤ i) && decide (i + 2 ≤ j) && decide (j + 2 ≤ cs.length) &&
      cs.getD i ' ' = '@' && cs.getD j ' ' = '.' &&
      (cs.take i).all emailChar &&
      ((cs.drop (i + 1)).take (j - (i + 1))).all emailChar &&
      ((cs.drop (j + 1)).all emailChar)))

/-! ## Chatbot canned replies (`getBotResponse`) -/

/-- Reply for the quote / price / cost rule. -/
def pricingReply : String :=
  "For a custom quote, please share your project details and I\x27ll connect you with our team. You can also <a href=\x27https://calendly.com/realltechlabs/free-consultation\x27 target=\x27_blank\x27>book a free consultation</a>."

/-- Reply for the service rule. -/
def serviceReply : String :=
  "We offer: Software Development, AI Solutions, Transcription & Captioning, Content Moderation, and Freelancing Mentorship. <a href=\x27services.html\x27>View all services</a>"

/-- Reply for the call / schedule / meeting rule. -/
def scheduleReply : String :=
  "Great! <a href=\x27https://calendly.com/realltechlabs/free-consultation\x27 target=\x27_blank\x27>Book your free 30-minute consultation here</a>."

/-- Reply for the contact / email rule. -/
def contactReply : String :=
  "Email us at <a href=\x27mailto:realltechlabs@gmail.com\x27>realltechlabs@gmail.com</a>. We respond within 24 hours!"

/-- Fallback reply when no keyword matches. -/
def fallbackReply : String :=
  "Thanks for your message! For detailed inquiries, please <a href=\x27contact.html\x27>fill out our contact form</a> or email <a href=\x27mailto:realltechlabs@gmail.com\x27>realltechlabs@gmail.com</a>. We\x27ll get back to you within 24 hours."

/-- Embedding of `getBotResponse`: lowercase the message, then scan the
keyword rules in source order, first match winning. -/
def getBotResponse (userMessage : String) : String :=
  let msg := jsToLower userMessage
  if jsIncludes msg "quote" || jsIncludes msg "price" || jsIncludes msg "cost" then
    pricingReply
  else if jsIncludes msg "service" then
    serviceReply
  else if jsIncludes msg "call" || jsIncludes msg "schedule" || jsIncludes msg "meeting" then
    scheduleReply
  else if jsIncludes msg "contact" || jsIncludes msg "email" then
    contactReply
  else
    fallbackReply

/-! ## Carousel navigation (clamping variant)

`goToSlide` clamps the requested index:
`currentIndex = Math.max(0, Math.min(index, totalSlides - slidesPerView))`.
All navigation paths funnel through it: `nextSlide` and the autoplay tick
request `currentIndex + 1`, `prevSlide` requests `currentIndex - 1`, a dot
click requests `i * slidesPerView`; keyboard arrows and swipes invoke
`nextSlide` / `prevSlide`.  Indices are JS numbers, modelled as `Int`. -/

/-- Embedding of `goToSlide` for slide count `total` and page size `spv`. -/
def goToSlide (total spv : Int) (index : Int) : Int :=
  max 0 (min index (total - spv))

/-- A carousel navigation event. -/
inductive CEvent where
  | next
  | prev
  | dotClick (i : Int)
  | keyRight
  | keyLeft
  | swipeNext
  | swipePrev
  | autoTick
deriving DecidableEq, Repr

/-- One navigation step: the new `currentIndex` after handling the event. -/
def carouselStep (total spv : Int) (idx : Int) : CEvent → Int
  | .next => goToSlide total spv (idx + 1)
  | .prev => goToSlide total spv (idx - 1)
  | .dotClick i => goToSlide total spv (i * spv)
  | .keyRight => goToSlide total spv (idx + 1)
  | .keyLeft => goToSlide total spv (idx - 1)
  | .swipeNext => goToSlide total spv (idx + 1)
  | .swipePrev => goToSlide total spv (idx - 1)
  | .autoTick => goToSlide total spv (idx + 1)

/-- Run a sequence of navigation events from index 0. -/
def carouselRun (total spv : Int) (evs : List CEvent) : Int :=
  evs.foldl (carouselStep total spv) 0

/-- The sibling source variant's `goToSlide` wraps instead of clamping:
a negative request lands on the last slide, a request past the end lands
on the first (two sequential `if`s).  That variant shows one slide per
view, so its bound is `totalSlides - 1`. -/
def wrapLow (total index : Int) : Int :=
  if index < 0 then total - 1 else index

/-- Second `if` of the wrapping `goToSlide`. -/
def goToSlideWrap (total index : Int) : Int :=
  if wrapLow total index ≥ total then 0 else wrapLow total index

/-- One navigation step of the wrapping variant. -/
def carouselStepWrap (total : Int) (idx : Int) : CEvent → Int
  | .next => goToSlideWrap total (idx + 1)
  | .prev => goToSlideWrap total (idx - 1)
  | .dotClick i => goToSlideWrap total i
  | .keyRight => goToSlideWrap total (idx + 1)
  | .keyLeft => goToSlideWrap total (idx - 1)
  | .swipeNext => goToSlideWrap total (idx + 1)
  | .swipePrev => goToSlideWrap total (idx - 1)
  | .autoTick => goToSlideWrap total (idx + 1)

/-- Run the wrapping variant from index 0. -/
def carouselRunWrap (total : Int) (evs : List CEvent) : Int :=
  evs.foldl (carouselStepWrap total) 0

theorem goToSlideWrap_bounds (total index : Int) (h : 1 ≤ total) :
    0 ≤ goToSlideWrap total index ∧ goToSlideWrap total index ≤ total - 1 := by
  unfold goToSlideWrap wrapLow
  split_ifs <;> omega

theorem carouselRunWrap_bounds (total : Int) (h : 1 ≤ total)
    (evs : List CEvent) :
    0 ≤ carouselRunWrap total evs ∧ carouselRunWrap total evs ≤ total - 1 := by
  suffices H : ∀ (start : Int), 0 ≤ start → start ≤ total - 1 →
      0 ≤ evs.foldl (carouselStepWrap total) start ∧
        evs.foldl (carouselStepWrap total) start ≤ total - 1 by
    exact H 0 le_rfl (by omega)
  induction evs with
  | nil => intro start h0 h1; exact ⟨h0, h1⟩
  | cons e rest ih =>
    intro start h0 h1
    have hb : 0 ≤ carouselStepWrap total start e ∧
        carouselStepWrap total start e ≤ total - 1 := by
      cases e <;> exact goToSlideWrap_bounds total _ h
    exact ih _ hb.1 hb.2

theorem goToSlide_nonneg (total spv index : Int) :
    0 ≤ goToSlide total spv index := by
  simp [goToSlide]

theorem goToSlide_le (total spv index : Int) (h : spv ≤ total) :
    goToSlide total spv index ≤ total - spv := by
  simp only [goToSlide]
  omega

theorem carouselStep_bounds (total spv : Int) (h : spv ≤ total)
    (idx : Int) (e : CEvent) :
    0 ≤ carouselStep total spv idx e ∧
      carouselStep total spv idx e ≤ total - spv := by
  cases e <;>
    exact ⟨goToSlide_nonneg _ _ _, goToSlide_le _ _ _ h⟩

theorem carouselRun_bounds (total spv : Int) (h : spv ≤ total)
    (evs : List CEvent) :
    0 ≤ carouselRun total spv evs ∧
      carouselRun total spv evs ≤ total - spv := by
  suffices H : ∀ (start : Int), 0 ≤ start → start ≤ total - spv →
      0 ≤ evs.foldl (carouselStep total spv) start ∧
        evs.foldl (carouselStep total spv) start ≤ total - spv by
    exact H 0 le_rfl (by omega)
  induction evs with
  | nil => intro start h0 h1; exact ⟨h0, h1⟩
  | cons e rest ih =>
    intro start h0 h1
    have hb := carouselStep_bounds total spv h start e
    exact ih _ hb.1 hb.2

/-! ## Form validation (`FormValidator`)

A form field carries its `name`, `type`, current `value`, the text of the
adjacent `.form-error` display element (when one exists), and whether that
element exists.  The validator's `errors` map is an association list with
JS `Map` semantics (`set` replaces in place or appends, `delete` removes,
`clear` empties). -/

structure Field where
  name : String
  type : String
  value : String
  errorText : String
  hasErrorElement : Bool
deriving DecidableEq, Repr

/-- The validator's `errors` map. -/
abbrev ErrMap := List (String × String)

/-- `Map.prototype.set`: replace an existing binding in place, else append. -/
def errSet (m : ErrMap) (k v : String) : ErrMap :=
  if m.any (fun p => p.1 = k) then
    m.map (fun p => if p.1 = k then (k, v) else p)
  else
    m ++ [(k, v)]

/-- `Map.prototype.delete`. -/
def errDelete (m : ErrMap) (k : String) : ErrMap :=
  m.filter (fun p => !(p.1 = k))

/-- The `switch (field.type)` block of `validateField`: the error message
computed from the field type and the trimmed value; `""` means the field
passes.  Types outside the four cases (e.g. `hidden`) fall through with no
error. -/
def fieldErrorMessage (t v : String) : String :=
  let value := jsTrim v
  if t = "text" then
    if value = "" then "This field is required"
    else if value.length < 2 then "Please enter at least 2 characters"
    else if value.length > 100 then "Please enter no more than 100 characters"
    else ""
  else if t = "email" then
    if value = "" then "Email is required"
    else if !(isValidEmail value) then "Please enter a valid email address"
    else ""
  else if t = "textarea" then
    if value = "" then "This field is required"
    else if value.length < 10 then "Please provide more details (at least 10 characters)"
    else if value.length > 5000 then "Message is too long (max 5000 characters)"
    else ""
  else if t = "select-one" then
    if value = "" then "Please select an option"
    else ""
  else ""

/-- The required-field message each of the four validated types produces on
an empty (or whitespace-only) value. -/
def requiredMessage (t : String) : String :=
  if t = "email" then "Email is required"
  else if t = "select-one" then "Please select an option"
  else "This field is required"

/-- `setFieldError`: write the message into the error element when it
exists, and record it in the map unconditionally. -/
def setFieldError (f : Field) (m : ErrMap) (msg : String) : Field × ErrMap :=
  ({ f with errorText := if f.hasErrorElement then msg else f.errorText },
    errSet m f.name msg)

/-- `clearFieldError`: blank the error element when it exists, and delete
the map entry unconditionally. -/
def clearFieldError (f : Field) (m : ErrMap) : Field × ErrMap :=
  ({ f with errorText := if f.hasErrorElement then "" else f.errorText },
    errDelete m f.name)

/-- `validateField`: compute the message, then either set or clear the
field's error; returns the updated field, map, and pass/fail. -/
def validateField (f : Field) (m : ErrMap) : Field × ErrMap × Bool :=
  let e := fieldErrorMessage f.type f.value
  if e = "" then
    let c := clearFieldError f m
    (c.1, c.2, true)
  else
    let s := setFieldError f m e
    (s.1, s.2, false)

/-- The `fields.forEach` loop of `validateForm`: fields named `_gotcha`
are skipped; every other field is validated and a single failure makes the
whole form invalid. -/
def validateFormAux : List Field → ErrMap → Bool → List Field × ErrMap × Bool
  | [], m, ok => ([], m, ok)
  | f :: fs, m, ok =>
    if f.name = "_gotcha" then
      let r := validateFormAux fs m ok
      (f :: r.1, r.2)
    else
      let p := validateField f m
      let r := validateFormAux fs p.2.1 (ok && p.2.2)
      (p.1 :: r.1, r.2)

/-- `validateForm`: `this.errors.clear()` then the per-field loop. -/
def validateForm (fs : List Field) : List Field × ErrMap × Bool :=
  validateFormAux fs [] true

/-- The `response.ok` branch of the submit handler: `form.reset()` (every
field value back to empty) followed by `clearFieldError` on every field. -/
def onSubmitSuccess (fs : List Field) (m : ErrMap) : List Field × ErrMap :=
  (fs.map (fun f =>
      { f with value := "", errorText := if f.hasErrorElement then "" else f.errorText }),
    fs.foldl (fun acc f => errDelete acc f.name) m)

/-! ## Trimming lemmas -/

theorem dropWhile_ws_of_all (l : List Char) (h : l.all isWs = true) :
    l.dropWhile isWs = [] := by
  refine List.dropWhile_eq_nil_iff.mpr ?_
  intro x hx
  exact List.all_eq_true.mp h x hx

theorem dropWhile_ws_append (pre l : List Char) (h : pre.all isWs = true) :
    (pre ++ l).dropWhile isWs = l.dropWhile isWs := by
  induction pre with
  | nil => rfl
  | cons c cs ih =>
    simp only [List.all_cons, Bool.and_eq_true] at h
    simpa [List.dropWhile, h.1] using ih h.2

theorem dropWhile_append_of_ne_nil (a b : List Char)
    (h : a.dropWhile isWs ≠ []) :
    (a ++ b).dropWhile isWs = a.dropWhile isWs ++ b := by
  induction a with
  | nil => simp [List.dropWhile] at h
  | cons c cs ih =>
    by_cases hc : isWs c
    · simp only [List.dropWhile_cons, hc, if_true, List.cons_append] at h ⊢
      simpa [List.dropWhile, hc] using ih h
    · simp [List.dropWhile, hc]

theorem trimList_of_all_ws (l : List Char) (h : l.all isWs = true) :
    trimList l = [] := by
  simp [trimList, dropWhile_ws_of_all l h]

theorem trimList_pad (pre suf l : List Char)
    (hp : pre.all isWs = true) (hs : suf.all isWs = true) :
    trimList (pre ++ l ++ suf) = trimList l := by
  have hsr : suf.reverse.all isWs = true := by
    simpa using hs
  by_cases hl : l.dropWhile isWs = []
  · have hla : l.all isWs = true := by
      refine List.all_eq_true.mpr ?_
      intro x hx
      exact List.dropWhile_eq_nil_iff.mp hl x hx
    have h1 : (pre ++ (l ++ suf)).dropWhile isWs = [] := by
      rw [dropWhile_ws_append _ _ hp, dropWhile_ws_append _ _ hla,
        dropWhile_ws_of_all _ hs]
    simp only [trimList, List.append_assoc]
    rw [h1, hl]
  · have h1 : (pre ++ (l ++ suf)).dropWhile isWs = l.dropWhile isWs ++ suf := by
      rw [dropWhile_ws_append _ _ hp, dropWhile_append_of_ne_nil _ _ hl]
    simp only [trimList, List.append_assoc]
    rw [h1, List.reverse_append, dropWhile_ws_append _ _ hsr]

/-! ## Claim theorems: carousel bounds, chatbot rule order, email format -/

/-- Claim C1: starting from index 0, any sequence of carousel navigation
events (prev, next, dot click, keyboard, swipe, autoplay tick) leaves
`currentIndex` within `[0, totalSlides - slidesPerView]`, for any
configuration with `1 ≤ slidesPerView ≤ totalSlides`.  This holds for the
clamping variant, and for the wrapping variant (whose page size is one
slide, giving the bound `totalSlides - 1`). -/
theorem carousel_index_clamped (total spv : Int) (h1 : 1 ≤ spv)
    (h : spv ≤ total) (evs : List CEvent) :
    (0 ≤ carouselRun total spv evs ∧
        carouselRun total spv evs ≤ total - spv) ∧
      (0 ≤ carouselRunWrap total evs ∧
        carouselRunWrap total evs ≤ total - 1) :=
  ⟨carouselRun_bounds total spv h evs,
   carouselRunWrap_bounds total (by omega) evs⟩

theorem carousel_index_clamped_witness :
    (1 : Int) ≤ 2 ∧ (2 : Int) ≤ 5 ∧
      ((0 ≤ carouselRun 5 2
          [CEvent.next, CEvent.next, CEvent.next, CEvent.next, CEvent.next,
           CEvent.prev, CEvent.dotClick 7, CEvent.autoTick, CEvent.keyLeft,
           CEvent.swipeNext] ∧
        carouselRun 5 2
          [CEvent.next, CEvent.next, CEvent.next, CEvent.next, CEvent.next,
           CEvent.prev, CEvent.dotClick 7, CEvent.autoTick, CEvent.keyLeft,
           CEvent.swipeNext] ≤ 5 - 2) ∧
       (0 ≤ carouselRunWrap 5
          [CEvent.next, CEvent.next, CEvent.next, CEvent.next, CEvent.next,
           CEvent.prev, CEvent.dotClick 7, CEvent.autoTick, CEvent.keyLeft,
           CEvent.swipeNext] ∧
        carouselRunWrap 5
          [CEvent.next, CEvent.next, CEvent.next, CEvent.next, CEvent.next,
           CEvent.prev, CEvent.dotClick 7, CEvent.autoTick, CEvent.keyLeft,
           CEvent.swipeNext] ≤ 5 - 1)) :=
  ⟨by decide, by decide,
   carousel_index_clamped 5 2 (by decide) (by decide) _⟩

/-- Claim C8: any user message whose lowercased text contains "price"
receives the pricing/quote reply — the rules are scanned in source order
and the quote/price/cost rule comes first, so a simultaneous "service"
occurrence cannot divert the answer. -/
theorem price_rule_first (msg : String)
    (h : jsIncludes (jsToLower msg) "price" = true) :
    getBotResponse msg = pricingReply := by
  simp [getBotResponse, h]

theorem price_rule_first_witness :
    jsIncludes (jsToLower "Price for your SERVICE?") "price" = true ∧
      getBotResponse "Price for your SERVICE?" = pricingReply :=
  ⟨by decide, price_rule_first "Price for your SERVICE?" (by decide)⟩

/-- Claim C10: every field kind is validated on the whitespace-trimmed
value: a non-empty all-whitespace input fails with that kind's required
message, and whitespace padding on either side never changes the outcome
(so it does not count toward the length thresholds). -/
theorem validation_on_trimmed_value (t : String)
    (ht : t = "text" ∨ t = "email" ∨ t = "textarea" ∨ t = "select-one") :
    (∀ v : String, v.data ≠ [] → v.data.all isWs = true →
      fieldErrorMessage t v = requiredMessage t ∧ requiredMessage t ≠ "") ∧
    (∀ (pre suf : List Char) (v : String),
      pre.all isWs = true → suf.all isWs = true →
      fieldErrorMessage t ⟨pre ++ v.data ++ suf⟩ = fieldErrorMessage t v) := by
  constructor
  · intro v _ hws
    have hz : jsTrim v = "" := by
      simp [jsTrim, trimList_of_all_ws v.data hws]
    rcases ht with h | h | h | h <;> subst h <;>
      simp [fieldErrorMessage, requiredMessage, hz]
  · intro pre suf v hp hs
    have htrim : jsTrim ⟨pre ++ v.data ++ suf⟩ = jsTrim v := by
      show String.mk (trimList (pre ++ v.data ++ suf)) = String.mk (trimList v.data)
      rw [trimList_pad pre suf v.data hp hs]
    simp only [fieldErrorMessage, htrim]

theorem validation_on_trimmed_value_witness :
    fieldErrorMessage "text" "   " = requiredMessage "text" ∧
      fieldErrorMessage "text" ⟨[' '] ++ "ab".data ++ [' ']⟩ =
        fieldErrorMessage "text" "ab" :=
  ⟨((validation_on_trimmed_value "text" (Or.inl rfl)).1 "   " (by decide)
      (by decide)).1,
   (validation_on_trimmed_value "text" (Or.inl rfl)).2 [' '] [' '] "ab"
      (by decide) (by decide)⟩

/-! ## Whole-form validation lemmas -/

theorem validateFormAux_false (fs : List Field) (m : ErrMap) :
    (validateFormAux fs m false).2.2 = false := by
  induction fs generalizing m with
  | nil => rfl
  | cons f fs ih =>
    by_cases hg : f.name = "_gotcha" <;>
      simp [validateFormAux, hg, ih]

theorem validateForm_true_errors_nil (fs : List Field)
    (h : (validateForm fs).2.2 = true) :
    (validateForm fs).2.1 = [] := by
  unfold validateForm at h ⊢
  induction fs with
  | nil => rfl
  | cons f fs ih =>
    by_cases hg : f.name = "_gotcha"
    · simp only [validateFormAux, if_pos hg] at h ⊢
      exact ih h
    · by_cases he : fieldErrorMessage f.type f.value = ""
      · simp [validateFormAux, validateField, clearFieldError, errDelete,
          hg, he] at h ⊢
        exact ih h
      · exfalso
        simp [validateFormAux, validateField, setFieldError, hg, he,
          validateFormAux_false] at h

theorem foldl_errDelete_nil (fs : List Field) :
    fs.foldl (fun acc f => errDelete acc f.name) [] = [] := by
  induction fs with
  | nil => rfl
  | cons f fs ih => simpa [errDelete] using ih

/-- Claim C3: when the relay responds HTTP-ok after a submission (which
requires `validateForm` to have returned `true`), the success branch
leaves every field value empty, every existing error-display element
blank, and the error map empty. -/
theorem relay_success_resets_form (fs : List Field)
    (h : (validateForm fs).2.2 = true) :
    (onSubmitSuccess (validateForm fs).1 (validateForm fs).2.1).2 = [] ∧
      ∀ f ∈ (onSubmitSuccess (validateForm fs).1 (validateForm fs).2.1).1,
        f.value = "" ∧ (f.hasErrorElement = true → f.errorText = "") := by
  have hm := validateForm_true_errors_nil fs h
  constructor
  · rw [onSubmitSuccess, hm]
    exact foldl_errDelete_nil _
  · intro f hf
    simp only [onSubmitSuccess, List.mem_map] at hf
    obtain ⟨g, _, rfl⟩ := hf
    refine ⟨rfl, fun hhe => ?_⟩
    simp only at hhe
    simp [hhe]

theorem relay_success_resets_form_witness :
    (validateForm
        [⟨"name", "text", "John", "old", true⟩,
         ⟨"_gotcha", "text", "", "stale", true⟩]).2.2 = true ∧
      ((onSubmitSuccess
          (validateForm
            [⟨"name", "text", "John", "old", true⟩,
             ⟨"_gotcha", "text", "", "stale", true⟩]).1
          (validateForm
            [⟨"name", "text", "John", "old", true⟩,
             ⟨"_gotcha", "text", "", "stale", true⟩]).2.1).2 = [] ∧
        ∀ f ∈ (onSubmitSuccess
          (validateForm
            [⟨"name", "text", "John", "old", true⟩,
             ⟨"_gotcha", "text", "", "stale", true⟩]).1
          (validateForm
            [⟨"name", "text", "John", "old", true⟩,
             ⟨"_gotcha", "text", "", "stale", true⟩]).2.1).1,
          f.value = "" ∧ (f.hasErrorElement = true → f.errorText = "")) :=
  ⟨by decide,
   relay_success_resets_form
     [⟨"name", "text", "John", "old", true⟩,
      ⟨"_gotcha", "text", "", "stale", true⟩] (by decide)⟩

/-! ## Honeypot handling -/

theorem errSet_key_prop (m : ErrMap) (k v : String) (P : String → Prop)
    (hm : ∀ p ∈ m, P p.1) (hk : P k) :
    ∀ q ∈ errSet m k v, P q.1 := by
  intro q hq
  unfold errSet at hq
  by_cases hc : m.any (fun p => p.1 = k)
  · rw [if_pos hc] at hq
    obtain ⟨p, hp, hpq⟩ := List.mem_map.mp hq
    by_cases hpk : p.1 = k
    · rw [if_pos hpk] at hpq
      rw [← hpq]
      exact hk
    · rw [if_neg hpk] at hpq
      rw [← hpq]
      exact hm p hp
  · rw [if_neg hc] at hq
    rcases List.mem_append.mp hq with hql | hqr
    · exact hm q hql
    · rw [List.mem_singleton.mp hqr]
      exact hk

theorem errDelete_subset (m : ErrMap) (k : String) :
    ∀ q ∈ errDelete m k, q ∈ m := by
  intro q hq
  exact (List.mem_filter.mp hq).1

theorem validateFormAux_no_gotcha_key (fs : List Field) (m : ErrMap)
    (ok : Bool) (hm : ∀ p ∈ m, ¬(p.1 = "_gotcha")) :
    ∀ p ∈ (validateFormAux fs m ok).2.1, ¬(p.1 = "_gotcha") := by
  induction fs generalizing m ok with
  | nil => exact hm
  | cons f fs ih =>
    by_cases hg : f.name = "_gotcha"
    · simp only [validateFormAux, if_pos hg]
      exact ih m ok hm
    · by_cases he : fieldErrorMessage f.type f.value = ""
      · simp only [validateFormAux, if_neg hg, validateField, if_pos he,
          clearFieldError]
        refine ih _ _ ?_
        intro p hp
        exact hm p (errDelete_subset m f.name p hp)
      · simp only [validateFormAux, if_neg hg, validateField, if_neg he,
          setFieldError]
        refine ih _ _ ?_
        exact errSet_key_prop m f.name (fieldErrorMessage f.type f.value)
          (fun s => ¬(s = "_gotcha")) hm hg

theorem validateFormAux_gotcha_untouched (fs : List Field) (m : ErrMap)
    (ok : Bool) :
    ∀ f' ∈ (validateFormAux fs m ok).1, f'.name = "_gotcha" → f' ∈ fs := by
  induction fs generalizing m ok with
  | nil =>
    intro f' hf'
    simp [validateFormAux] at hf'
  | cons f fs ih =>
    intro f' hf' hname
    by_cases hg : f.name = "_gotcha"
    · simp only [validateFormAux, if_pos hg, List.mem_cons] at hf'
      rcases hf' with hf' | hf'
      · exact List.mem_cons.mpr (Or.inl hf')
      · exact List.mem_cons.mpr (Or.inr (ih m ok f' hf' hname))
    · simp only [validateFormAux, if_neg hg, List.mem_cons] at hf'
      rcases hf' with hf' | hf'
      · exfalso
        apply hg
        rw [← hname, hf']
        unfold validateField clearFieldError setFieldError
        by_cases he : fieldErrorMessage f.type f.value = "" <;>
          simp [he]
      · exact List.mem_cons.mpr
          (Or.inr (ih _ _ f' hf' hname))

theorem validateFormAux_skip_eq (fs : List Field) (m : ErrMap) (ok : Bool) :
    (validateFormAux fs m ok).2 =
      (validateFormAux (fs.filter (fun f => !(f.name = "_gotcha"))) m ok).2 := by
  induction fs generalizing m ok with
  | nil => rfl
  | cons f fs ih =>
    by_cases hg : f.name = "_gotcha"
    · simp [validateFormAux, List.filter_cons, hg]
      exact ih m ok
    · simp [validateFormAux, List.filter_cons, hg]
      exact ih _ _

/-- Claim C6 (amended): whole-form validation on submit always skips the
honeypot — it never blocks submission (the verdict equals that of the
non-honeypot fields), honeypot fields pass through untouched, and no
`_gotcha` entry enters the error map during that pass. -/
theorem honeypot_skipped_on_submit (fs : List Field) :
    (validateForm fs).2.2 =
        (validateForm (fs.filter (fun f => !(f.name = "_gotcha")))).2.2 ∧
      (∀ f ∈ (validateForm fs).1, f.name = "_gotcha" → f ∈ fs) ∧
      (∀ p ∈ (validateForm fs).2.1, ¬(p.1 = "_gotcha")) := by
  refine ⟨?_, ?_, ?_⟩
  · exact congrArg Prod.snd (validateFormAux_skip_eq fs [] true)
  · exact validateFormAux_gotcha_untouched fs [] true
  · refine validateFormAux_no_gotcha_key fs [] true ?_
    intro p hp
    simp at hp

theorem honeypot_skipped_on_submit_witness :
    (validateForm
        [⟨"msg", "textarea", "short", "", true⟩,
         ⟨"_gotcha", "text", "", "stale", true⟩]).2.2 =
      (validateForm
        ([⟨"msg", "textarea", "short", "", true⟩,
          ⟨"_gotcha", "text", "", "stale", true⟩].filter
            (fun f => !(f.name = "_gotcha")))).2.2 ∧
      (⟨"_gotcha", "text", "", "stale", true⟩ : Field) ∈
        [(⟨"msg", "textarea", "short", "", true⟩ : Field),
         ⟨"_gotcha", "text", "", "stale", true⟩] :=
  ⟨(honeypot_skipped_on_submit
      [⟨"msg", "textarea", "short", "", true⟩,
       ⟨"_gotcha", "text", "", "stale", true⟩]).1,
   (honeypot_skipped_on_submit
      [⟨"msg", "textarea", "short", "", true⟩,
       ⟨"_gotcha", "text", "", "stale", true⟩]).2.1
      ⟨"_gotcha", "text", "", "stale", true⟩ (by decide) (by decide)⟩

/-- Claim C6 counterexample: per-field validation on blur does not skip
the honeypot.  `validateField` dispatches on `field.type` only, so a
text-type `_gotcha` field with empty value fails, its error element
receives the required message, and a `_gotcha` entry enters the error
map — contradicting "always skipped by every validation pass". -/
theorem honeypot_blur_gets_error :
    (validateField ⟨"_gotcha", "text", "", "", true⟩ []).2.2 = false ∧
      (validateField ⟨"_gotcha", "text", "", "", true⟩ []).1.errorText =
        "This field is required" ∧
      (validateField ⟨"_gotcha", "text", "", "", true⟩ []).2.1 =
        [("_gotcha", "This field is required")] := by
  refine ⟨by decide, by decide, by decide⟩

/-- Claim C9: the email check accepts `user@example.com` and rejects
`user@`, `@example.com`, and `user.example.com`. -/
theorem email_examples :
    isValidEmail "user@example.com" = true ∧
      isValidEmail "user@" = false ∧
      isValidEmail "@example.com" = false ∧
      isValidEmail "user.example.com" = false := by
  refine ⟨by decide, by decide, by decide, by decide⟩

/-! ## Contact-form submit guard (C2)

The submit handler, after validation passes, runs as two synchronous
segments separated by `await fetch(...)`:

* start: `if (submitBtn.disabled) return;` then `submitBtn.disabled = true`
  and the `fetch` call (the network call we count), then suspension;
* finish: the `finally` block, `submitBtn.disabled = false`.

JavaScript's run-to-completion model makes each segment atomic.  Two
submit events give two handler instances whose segments interleave. -/

/-- Progress of one submit-handler instance. -/
inductive Phase where
  | ready
  | inflight
  | doneCalled
  | doneSkipped
deriving DecidableEq, Repr

/-- Joint state of the two handler instances, the shared
`submitBtn.disabled` flag, and the number of network calls made. -/
structure SubmitState where
  pc1 : Phase
  pc2 : Phase
  disabled : Bool
  calls : Nat
deriving DecidableEq, Repr

/-- An atomic synchronous segment of either handler instance. -/
inductive SubmitAct where
  | start1
  | start2
  | finish1
  | finish2
deriving DecidableEq, Repr

/-- Execute one segment.  A `start` on an instance that is not at its
beginning, or a `finish` on one that is not awaiting the response, does
nothing. -/
def submitStep (s : SubmitState) : SubmitAct → SubmitState
  | .start1 =>
    if s.pc1 = .ready then
      if s.disabled then { s with pc1 := .doneSkipped }
      else { s with pc1 := .inflight, disabled := true, calls := s.calls + 1 }
    else s
  | .start2 =>
    if s.pc2 = .ready then
      if s.disabled then { s with pc2 := .doneSkipped }
      else { s with pc2 := .inflight, disabled := true, calls := s.calls + 1 }
    else s
  | .finish1 =>
    if s.pc1 = .inflight then { s with pc1 := .doneCalled, disabled := false }
    else s
  | .finish2 =>
    if s.pc2 = .inflight then { s with pc2 := .doneCalled, disabled := false }
    else s

/-- Initial state: both handlers pending, button enabled, no calls. -/
def submitInit : SubmitState := ⟨.ready, .ready, false, 0⟩

/-- Run a schedule of segments from the initial state. -/
def submitRun (acts : List SubmitAct) : SubmitState :=
  acts.foldl submitStep submitInit

/-- 1 when the instance has issued its network call. -/
def calledCount : Phase → Nat
  | .inflight => 1
  | .doneCalled => 1
  | _ => 0

/-- System invariant: the disabled flag is set exactly while an instance
is in flight, at most one instance is in flight, and the call counter
equals the number of instances that issued a call. -/
def SubmitInv (s : SubmitState) : Prop :=
  (s.disabled = true ↔ (s.pc1 = .inflight ∨ s.pc2 = .inflight)) ∧
    ¬(s.pc1 = .inflight ∧ s.pc2 = .inflight) ∧
    s.calls = calledCount s.pc1 + calledCount s.pc2

theorem submitStep_inv (s : SubmitState) (a : SubmitAct)
    (h : SubmitInv s) : SubmitInv (submitStep s a) := by
  obtain ⟨p1, p2, d, c⟩ := s
  cases a <;> cases p1 <;> cases p2 <;> cases d <;>
    simp_all [SubmitInv, submitStep, calledCount]

theorem submitRun_inv (acts : List SubmitAct) : SubmitInv (submitRun acts) := by
  have hinit : SubmitInv submitInit := by
    refine ⟨by simp [submitInit], by simp [submitInit], by rfl⟩
  unfold submitRun
  induction acts using List.reverseRecOn with
  | nil => exact hinit
  | append_singleton as a ih =>
    rw [List.foldl_append]
    exact submitStep_inv _ a ih

theorem submitStep_no_ready (s : SubmitState) (a : SubmitAct)
    (h1 : s.pc1 ≠ .ready) (h2 : s.pc2 ≠ .ready) :
    (submitStep s a).calls = s.calls ∧
      (submitStep s a).pc1 ≠ .ready ∧ (submitStep s a).pc2 ≠ .ready := by
  obtain ⟨p1, p2, d, c⟩ := s
  cases a <;> cases p1 <;> cases p2 <;>
    simp_all [submitStep]

theorem submitFold_no_ready (b : List SubmitAct) (s : SubmitState)
    (h1 : s.pc1 ≠ .ready) (h2 : s.pc2 ≠ .ready) :
    (b.foldl submitStep s).calls = s.calls := by
  induction b generalizing s with
  | nil => rfl
  | cons a b ih =>
    have h := submitStep_no_ready s a h1 h2
    rw [List.foldl_cons, ih _ h.2.1 h.2.2, h.1]

/-- Claim C2: if a second submit event arrives while the first handler's
request is in flight (button disabled, handler suspended at the `await`),
the guard makes it return without a call: the disabled flag is set at that
moment, and however the remaining segments are scheduled afterwards,
exactly one network call is ever made. -/
theorem double_submit_single_call (a b : List SubmitAct)
    (h1 : (submitRun a).pc1 = Phase.inflight)
    (h2 : (submitRun a).pc2 = Phase.ready) :
    (submitRun a).disabled = true ∧
      (submitRun (a ++ SubmitAct.start2 :: b)).calls = 1 := by
  obtain ⟨hd, hx, hc⟩ := submitRun_inv a
  have hdis : (submitRun a).disabled = true := hd.mpr (Or.inl h1)
  refine ⟨hdis, ?_⟩
  have hcalls : (submitRun a).calls = 1 := by
    rw [hc, h1, h2]
    rfl
  have hstep : submitStep (submitRun a) SubmitAct.start2 =
      { submitRun a with pc2 := Phase.doneSkipped } := by
    simp [submitStep, h2, hdis]
  have hrun : submitRun (a ++ SubmitAct.start2 :: b) =
      b.foldl submitStep (submitStep (submitRun a) SubmitAct.start2) := by
    unfold submitRun
    rw [List.foldl_append, List.foldl_cons]
  rw [hrun, hstep]
  rw [submitFold_no_ready]
  · simpa using hcalls
  · simp [h1]
  · simp

theorem double_submit_single_call_witness :
    (submitRun [SubmitAct.start1]).pc1 = Phase.inflight ∧
      (submitRun [SubmitAct.start1]).pc2 = Phase.ready ∧
      (submitRun [SubmitAct.start1]).disabled = true ∧
      (submitRun
        ([SubmitAct.start1] ++ SubmitAct.start2 :: [SubmitAct.finish1])).calls
        = 1 :=
  ⟨by decide, by decide,
   (double_submit_single_call [SubmitAct.start1] [SubmitAct.finish1]
      (by decide) (by decide)).1,
   (double_submit_single_call [SubmitAct.start1] [SubmitAct.finish1]
      (by decide) (by decide)).2⟩

/-! ## Chatbot message handling (C4)

`handleSubmit` appends the user message, fires `sendToFormspree`
(fire-and-forget: its `try/catch` swallows any failure and only logs
`console.log('Message logged locally')`), and schedules the canned reply
after a fixed 800 ms delay regardless of the relay outcome.  Observable
side effects are collected in a list. -/

/-- Who produced a chat history entry. -/
inductive Role where
  | user
  | bot
deriving DecidableEq, Repr

/-- Observable side effects of the chat submit path. -/
inductive ChatEff where
  | relayAttempt
  | logLocal
  | alertShown (text : String)
deriving DecidableEq, Repr

/-- Embedding of `handleSubmit` for one message: resulting conversation
history and emitted effects, given whether the relay request succeeds. -/
def handleSubmit (history : List (Role × String)) (message : String)
    (relayOk : Bool) : List (Role × String) × List ChatEff :=
  if jsTrim message = "" then (history, [])
  else
    (history ++ [(Role.user, message), (Role.bot, getBotResponse message)],
     ChatEff.relayAttempt :: (if relayOk then [] else [ChatEff.logLocal]))

/-- Claim C4: a failing relay request for a chat message is swallowed —
only a log entry is emitted, never an alert — and the canned bot reply is
still appended after the user message, exactly as on success. -/
theorem chat_relay_failure_swallowed (history : List (Role × String))
    (message : String) (relayOk : Bool) (h : jsTrim message ≠ "") :
    (handleSubmit history message relayOk).1 =
        history ++ [(Role.user, message),
          (Role.bot, getBotResponse message)] ∧
      (∀ t, ChatEff.alertShown t ∉ (handleSubmit history message relayOk).2) ∧
      (relayOk = false →
        ChatEff.logLocal ∈ (handleSubmit history message relayOk).2) ∧
      (relayOk = true →
        ChatEff.logLocal ∉ (handleSubmit history message relayOk).2) := by
  cases relayOk <;> simp [handleSubmit, h]

theorem chat_relay_failure_swallowed_witness :
    jsTrim "hi" ≠ "" ∧
      (handleSubmit [] "hi" false).1 =
        [] ++ [(Role.user, "hi"), (Role.bot, getBotResponse "hi")] ∧
      ChatEff.logLocal ∈ (handleSubmit [] "hi" false).2 :=
  ⟨by decide,
   (chat_relay_failure_swallowed [] "hi" false (by decide)).1,
   (chat_relay_failure_swallowed [] "hi" false (by decide)).2.2.1 rfl⟩

/-! ## Widget initializer guards (C5)

Each initializer is modelled on a record of element-presence flags; a
`TypeError` raised by dereferencing a missing element is an `Except.error`. -/

/-- Elements used by the cookie-consent banner. -/
structure ConsentDom where
  banner : Bool
  accept : Bool
deriving DecidableEq, Repr

/-- Elements used by the chatbot widget. -/
structure ChatbotDom where
  widget : Bool
  toggle : Bool
  window : Bool
  form : Bool
  success : Bool
  messages : Bool
deriving DecidableEq, Repr

/-- Elements used by the testimonials carousel; `slideCount` is the
number of `.carousel-slide` elements under the track (0 when the track is
absent). -/
structure CarouselDom where
  carousel : Bool
  track : Bool
  slideCount : Nat
  prevBtn : Bool
  nextBtn : Bool
  dotsContainer : Bool
deriving DecidableEq, Repr

/-- `initCookieConsent`: guarded on both elements; the body dereferences
nothing else, so it never throws. -/
def initCookieConsent (d : ConsentDom) : Except String Unit :=
  if !d.banner || !d.accept then .ok () else .ok ()

/-- `initFormHandling`: guarded on the form alone; the remaining lookups
(`submitBtn`, `successMessage`) are not dereferenced during
initialization. -/
def initFormHandling (formPresent : Bool) : Except String Unit :=
  if !formPresent then .ok () else .ok ()

/-- `initChatbot`: guarded on widget, toggle and window; the body only
registers listeners, so initialization itself never throws (later event
handlers may dereference the unguarded `form`/`success`/`messages`). -/
def initChatbot (d : ChatbotDom) : Except String Unit :=
  if !d.widget || !d.toggle || !d.window then .ok () else .ok ()

/-- `initTestimonialsCarousel`: guarded on the root, the track and a
non-empty slide list — but the dot-creation loop then calls
`dotsContainer.appendChild(dot)` without any guard, so a missing
`#carousel-dots` makes the initializer itself throw. -/
def initTestimonialsCarousel (d : CarouselDom) : Except String Unit :=
  if !d.carousel then .ok ()
  else
    let slides := if d.track then d.slideCount else 0
    if !d.track || slides = 0 then .ok ()
    else if !d.dotsContainer then .error "TypeError: dotsContainer is null"
    else .ok ()

/-- Claim C5 (amended): absence of any guard-checked element makes the
corresponding initializer a safe no-op. -/
theorem widget_init_guards (cd : ConsentDom) (fp : Bool) (ch : ChatbotDom)
    (ca : CarouselDom) :
    (cd.banner = false ∨ cd.accept = false →
        initCookieConsent cd = .ok ()) ∧
      (fp = false → initFormHandling fp = .ok ()) ∧
      (ch.widget = false ∨ ch.toggle = false ∨ ch.window = false →
        initChatbot ch = .ok ()) ∧
      (ca.carousel = false ∨ ca.track = false ∨ ca.slideCount = 0 →
        initTestimonialsCarousel ca = .ok ()) := by
  refine ⟨?_, ?_, ?_, ?_⟩
  · intro h
    rcases h with h | h <;> simp [initCookieConsent, h]
  · intro h
    simp [initFormHandling, h]
  · intro h
    rcases h with h | h | h <;> simp [initChatbot, h]
  · intro h
    rcases h with h | h | h <;> simp [initTestimonialsCarousel, h]

theorem widget_init_guards_witness :
    initCookieConsent ⟨false, true⟩ = .ok () ∧
      initFormHandling false = .ok () ∧
      initChatbot ⟨true, false, true, true, true, true⟩ = .ok () ∧
      initTestimonialsCarousel ⟨true, false, 0, true, true, true⟩ = .ok () :=
  ⟨(widget_init_guards ⟨false, true⟩ false
      ⟨true, false, true, true, true, true⟩
      ⟨true, false, 0, true, true, true⟩).1 (Or.inl rfl),
   (widget_init_guards ⟨false, true⟩ false
      ⟨true, false, true, true, true, true⟩
      ⟨true, false, 0, true, true, true⟩).2.1 rfl,
   (widget_init_guards ⟨false, true⟩ false
      ⟨true, false, true, true, true, true⟩
      ⟨true, false, 0, true, true, true⟩).2.2.1 (Or.inr (Or.inl rfl)),
   (widget_init_guards ⟨false, true⟩ false
      ⟨true, false, true, true, true, true⟩
      ⟨true, false, 0, true, true, true⟩).2.2.2 (Or.inr (Or.inl rfl))⟩

/-- Claim C5 counterexample: with the carousel root, the track and one
slide present but the dots container absent, the carousel initializer
throws instead of no-opping, refuting "absence of any element the widget
uses causes the initializer to return without effect and without
throwing". -/
theorem carousel_init_throws_without_dots :
    initTestimonialsCarousel ⟨true, true, 1, true, true, false⟩ =
      .error "TypeError: dotsContainer is null" := by
  rfl

/-! ## Carousel autoplay timers (C7)

State tracks the number of live interval timers (`active`), whether the
`autoPlayInterval` variable still refers to a live timer (`handleLive`;
`clearInterval` can only kill that one), and the pointer/visibility
context.  `isAutoPlaying` is initialized to `true` and never reassigned in
the source, so the `if (isAutoPlaying)` guards always pass and are elided.

Handlers (from the source): `mouseenter` → `clearInterval`; `mouseleave`
→ `startAutoPlay` (no clear first); `visibilitychange` to hidden →
`clearInterval`; to visible → `startAutoPlay` (no clear first). -/

/-- Timer bookkeeping plus pointer/visibility context. -/
structure AutoplayState where
  active : Nat
  handleLive : Bool
  hovering : Bool
  hidden : Bool
deriving DecidableEq, Repr

/-- `clearInterval(autoPlayInterval)`: kills the referenced timer when it
is still live; other leaked timers are unaffected. -/
def clearTimer (s : AutoplayState) : AutoplayState :=
  if s.handleLive then { s with active := s.active - 1, handleLive := false }
  else s

/-- `autoPlayInterval = setInterval(...)`: a fresh live timer; a
previously live timer loses its only reference and leaks. -/
def startTimer (s : AutoplayState) : AutoplayState :=
  { s with active := s.active + 1, handleLive := true }

/-- The events the claim quantifies over. -/
inductive APEvent where
  | hoverEnter
  | hoverExit
  | tabHidden
  | tabVisible
deriving DecidableEq, Repr

/-- The event handlers. -/
def apStep (s : AutoplayState) : APEvent → AutoplayState
  | .hoverEnter => clearTimer { s with hovering := true }
  | .hoverExit => startTimer { s with hovering := false }
  | .tabHidden => clearTimer { s with hidden := true }
  | .tabVisible => startTimer { s with hidden := false }

/-- State after `initTestimonialsCarousel`: autoplay started once,
pointer outside, tab visible. -/
def apInit : AutoplayState := ⟨1, true, false, false⟩

/-- Run a sequence of hover/visibility events. -/
def apRun (evs : List APEvent) : AutoplayState :=
  evs.foldl apStep apInit

/-- Which events the browser can dispatch in a state: enter/exit and
hidden/visible alternate, the pointer cannot leave while the tab is
hidden, and the tab cannot become visible while the pointer already
hovers the carousel. -/
def apOk (s : AutoplayState) : APEvent → Bool
  | .hoverEnter => !s.hovering
  | .hoverExit => s.hovering && !s.hidden
  | .tabHidden => !s.hidden
  | .tabVisible => s.hidden && !s.hovering

/-- All events of a sequence admissible from `s`. -/
def apOkRun (s : AutoplayState) : List APEvent → Bool
  | [] => true
  | e :: es => apOk s e && apOkRun (apStep s e) es

/-- Autoplay invariant: the referenced timer is live only while the
pointer is out and the tab visible, and no timer has leaked. -/
def ApInv (s : AutoplayState) : Prop :=
  (s.handleLive = true → s.hovering = false ∧ s.hidden = false) ∧
    s.active = (if s.handleLive then 1 else 0)

theorem apStep_inv (s : AutoplayState) (e : APEvent)
    (hinv : ApInv s) (hok : apOk s e = true) : ApInv (apStep s e) := by
  obtain ⟨a, l, hov, hid⟩ := s
  cases e <;> cases l <;>
    simp_all [ApInv, apStep, apOk, clearTimer, startTimer]

theorem apFold_inv (evs : List APEvent) (s : AutoplayState)
    (hinv : ApInv s) (hok : apOkRun s evs = true) :
    ApInv (evs.foldl apStep s) := by
  induction evs generalizing s with
  | nil => exact hinv
  | cons e es ih =>
    rw [apOkRun, Bool.and_eq_true] at hok
    exact ih _ (apStep_inv s e hinv hok.1) hok.2

theorem apOkRun_append (s : AutoplayState) (xs ys : List APEvent)
    (h : apOkRun s (xs ++ ys) = true) :
    apOkRun s xs = true ∧ apOkRun (xs.foldl apStep s) ys = true := by
  induction xs generalizing s with
  | nil => exact ⟨rfl, h⟩
  | cons e es ih =>
    rw [List.cons_append, apOkRun, Bool.and_eq_true] at h
    have := ih _ h.2
    exact ⟨by rw [apOkRun, Bool.and_eq_true]; exact ⟨h.1, this.1⟩,
      by simpa using this.2⟩

/-- Claim C7 (amended): under browser-dispatchable interleavings in which
the tab never turns visible while the pointer hovers the carousel and the
pointer never leaves while the tab is hidden, at most one autoplay timer
is ever active, hovering suspends autoplay entirely, and each hover-exit
resumes exactly one timer. -/
theorem autoplay_single_timer (evs : List APEvent)
    (h : apOkRun apInit evs = true) :
    (apRun evs).active ≤ 1 ∧
      ((apRun evs).hovering = true → (apRun evs).active = 0) ∧
      (∀ pre, evs = pre ++ [APEvent.hoverExit] → (apRun evs).active = 1) := by
  have hinit : ApInv apInit := by
    constructor
    · intro _
      exact ⟨rfl, rfl⟩
    · rfl
  have hinv : ApInv (apRun evs) := apFold_inv evs apInit hinit h
  refine ⟨?_, ?_, ?_⟩
  · rw [hinv.2]
    split <;> omega
  · intro hh
    rw [hinv.2]
    by_cases hl : (apRun evs).handleLive = true
    · exact absurd (hinv.1 hl).1 (by simp [hh])
    · simp [hl]
  · intro pre hpre
    subst hpre
    have hsplit := apOkRun_append apInit pre [APEvent.hoverExit] h
    have hpinv : ApInv (pre.foldl apStep apInit) :=
      apFold_inv pre apInit hinit hsplit.1
    have hok : apOk (pre.foldl apStep apInit) APEvent.hoverExit = true := by
      have := hsplit.2
      rw [apOkRun, Bool.and_eq_true] at this
      exact this.1
    have hzero : (pre.foldl apStep apInit).active = 0 := by
      rw [apOk, Bool.and_eq_true] at hok
      by_cases hl : (pre.foldl apStep apInit).handleLive = true
      · exact absurd (hpinv.1 hl).1 (by simp [hok.1])
      · rw [hpinv.2]
        simp [hl]
    have hrun : apRun (pre ++ [APEvent.hoverExit]) =
        apStep (pre.foldl apStep apInit) APEvent.hoverExit := by
      unfold apRun
      rw [List.foldl_append]
      rfl
    rw [hrun]
    simp [apStep, startTimer, hzero]

theorem autoplay_single_timer_witness :
    apOkRun apInit [APEvent.hoverEnter, APEvent.hoverExit] = true ∧
      (apRun [APEvent.hoverEnter, APEvent.hoverExit]).active ≤ 1 ∧
      (apRun [APEvent.hoverEnter, APEvent.hoverExit]).active = 1 :=
  ⟨by decide,
   (autoplay_single_timer [APEvent.hoverEnter, APEvent.hoverExit]
      (by decide)).1,
   (autoplay_single_timer [APEvent.hoverEnter, APEvent.hoverExit]
      (by decide)).2.2 [APEvent.hoverEnter] rfl⟩

/-- Claim C7 counterexample: hover the carousel, hide the tab, make it
visible again (starts a timer), then move the pointer out (starts a
second timer without clearing the first): two intervals run
concurrently, refuting "no interleaving of these events leaves two
concurrent timers scheduled". -/
theorem autoplay_two_timers :
    (apRun [APEvent.hoverEnter, APEvent.tabHidden, APEvent.tabVisible,
      APEvent.hoverExit]).active = 2 := by
  rfl

end RealTech
